import Mathlib

/-!
Shallow embedding of the colonycore dataset-service client
(src/clients/python/dataset_client.py) and of the exit-code logic of the CI
lint runner (src/scripts/run_lintr.py).

Modelling conventions:
- Python strings become Lean String; optional arguments become Option String,
  with Python truthiness (None and the empty string are falsy) made explicit.
- Wall-clock time is modelled as Nat time-units: the call to wait_for_export
  starts at time 0, time.sleep(interval) advances the clock by interval, and
  fetches are instantaneous. poll_interval and timeout are Nat (the claims use
  integral values only).
- The requests transport boundary (Session.get/post, Response.raise_for_status,
  Response.json) is not repository code; per the spec it surfaces non-2xx
  responses as transport errors, so a response is modelled as a status code
  plus an already-structured body where an absent JSON key is None.
- Raised Python exceptions become the error side of Except; a handle returned
  normally becomes the ok side (for the polling loop, PollOutcome.done).
-/

namespace ColonyCore

/-- Artifact entries are opaque service-defined mappings
(List[Dict[str, Any]] in the source); the client never inspects them. -/
structure Artifact where
  fields : List (String × String)
deriving Repr, DecidableEq

/-- ExportHandle from dataset_client.py: an asynchronous export job snapshot.
The status field stays a raw string, exactly as in the source. -/
structure ExportHandle where
  id : String
  status : String
  artifacts : List Artifact
deriving Repr, DecidableEq

/-- Error taxonomy of the client, as raised by the source:
validationError is the ValueError raised by queue_export before any request;
serviceError is the transport error from raise_for_status on a non-2xx
response, carrying the HTTP status code and response body;
protocolError is the KeyError raised when a 2xx body lacks a required key. -/
inductive ClientError where
  | validationError (msg : String)
  | serviceError (statusCode : Nat) (body : String)
  | protocolError (missingKey : String)
deriving Repr, DecidableEq

/-- Termination test of the polling loop: the source condition is
handle.status not in the set containing "succeeded" and "failed". -/
def isTerminalStatus (s : String) : Bool :=
  s == "succeeded" || s == "failed"

/-- Outcome of wait_for_export: done is a normal return of the handle,
timedOut is the raised TimeoutError; raisedAt records the loop time at which
the deadline check failed (trace instrumentation of the model). -/
inductive PollOutcome where
  | done (handle : ExportHandle)
  | timedOut (raisedAt : Nat)
deriving Repr, DecidableEq

/-- One step of the wait_for_export loop, fuel-indexed so the model is total.
State: the current handle, the index k of the next fetch in the service's
status sequence seq, the current time now, and the list of absolute times at
which fetches have been issued so far. Mirrors the source loop: while the
status is non-terminal, raise TimeoutError if now exceeds the deadline,
otherwise sleep poll_interval and fetch again. -/
def waitAux (seq : Nat → ExportHandle) (interval deadline : Nat) :
    Nat → ExportHandle → Nat → Nat → List Nat → Option (PollOutcome × List Nat)
  | 0, _, _, _, _ => none
  | fuel + 1, handle, k, now, times =>
    if isTerminalStatus handle.status then some (.done handle, times)
    else if deadline < now then some (.timedOut now, times)
    else waitAux seq interval deadline fuel (seq k) (k + 1) (now + interval)
      (times ++ [now + interval])

/-- wait_for_export from dataset_client.py: the absolute deadline is
call-start time (0) plus the timeout duration, the first fetch (seq 0) happens
immediately at time 0, and the loop then runs. Returns, when the fuel
suffices, the outcome together with the times of all fetches issued. -/
def wait_for_export (seq : Nat → ExportHandle) (interval deadline fuel : Nat) :
    Option (PollOutcome × List Nat) :=
  waitAux seq interval deadline fuel (seq 0) 1 0 [0]

/-- Python truthiness of an optional string argument: None and the empty
string are falsy, every other string is truthy. -/
def truthy : Option String → Bool
  | none => false
  | some s => !s.isEmpty

/-- Parsed view of the JSON object under the export key of a 2xx response
body; a field is none when the corresponding key is absent. artifacts is read
with dict.get and a default, hence its absence is not an error. -/
structure ExportPayload where
  id : Option String
  status : Option String
  artifacts : Option (List Artifact)
deriving Repr, DecidableEq

/-- Parsed view of a 2xx response body of the export endpoints: exportField
models the export key of the JSON object (none when the key is absent). -/
structure ExportBody where
  exportField : Option ExportPayload
deriving Repr, DecidableEq

/-- Response of the export endpoints: HTTP status code, raw body text
(carried by the transport error on non-2xx), and the structured body view. -/
structure ExportResponse where
  statusCode : Nat
  text : String
  body : ExportBody
deriving Repr, DecidableEq

/-- Success test on an HTTP status code: 2xx. -/
def is2xx (code : Nat) : Bool :=
  decide (200 ≤ code) && decide (code < 300)

/-- Modelled from the spec: Response.raise_for_status belongs to the requests
library, not to this repository; the spec describes the transport as surfacing
non-2xx responses as transport errors carrying status code and body, and this
is how both export endpoints and the artifact download treat responses. -/
def raise_for_status (resp : ExportResponse) : Except ClientError Unit :=
  if is2xx resp.statusCode then .ok ()
  else .error (.serviceError resp.statusCode resp.text)

/-- Body parsing shared by queue_export and get_export in the source:
payload = resp.json()["export"], then ExportHandle(id=payload["id"],
status=payload["status"], artifacts=payload.get("artifacts", [])). Each
missing required key raises a KeyError, modelled as protocolError naming it;
the status string is stored verbatim, with no validation. -/
def parseExportBody (body : ExportBody) : Except ClientError ExportHandle :=
  match body.exportField with
  | none => .error (.protocolError "export")
  | some payload =>
    match payload.id with
    | none => .error (.protocolError "id")
    | some i =>
      match payload.status with
      | none => .error (.protocolError "status")
      | some s => .ok { id := i, status := s, artifacts := payload.artifacts.getD [] }

/-- Response handling shared verbatim by queue_export and get_export:
resp.raise_for_status() followed by parsing the export payload. -/
def parseExportResponse (resp : ExportResponse) : Except ClientError ExportHandle :=
  match raise_for_status resp with
  | .error e => .error e
  | .ok _ => parseExportBody resp.body

/-- get_export from dataset_client.py: issue the status lookup (the response
is the model input), raise_for_status, then parse the export payload. -/
def get_export (resp : ExportResponse) : Except ClientError ExportHandle :=
  parseExportResponse resp

/-- NotFoundError as the spec defines it: the specialization of ServiceError
for a 404 on a lookup-by-id. The source raises the same transport error type
for every non-2xx status, distinguished by its stored status code. -/
def isNotFoundError : ClientError → Bool
  | .serviceError 404 _ => true
  | _ => false

/-- Template identity sent in the export submission body: either the slug
dict or the explicit plugin-key-version dict built by queue_export. -/
inductive TemplateBody where
  | slug (s : String)
  | explicit (plugin key version : String)
deriving Repr, DecidableEq

/-- Request body assembled by queue_export (parameters and scope default to
empty mappings, formats to an empty list; the remaining fields pass through). -/
structure ExportRequestBody where
  template : TemplateBody
  parameters : List (String × String)
  scope : List (String × String)
  formats : List String
  requested_by : Option String
  reason : Option String
  project_id : Option String
  protocol_id : Option String
deriving Repr, DecidableEq

/-- Arguments of queue_export, all optional as in the source signature. -/
structure QueueArgs where
  template_slug : Option String := none
  plugin : Option String := none
  key : Option String := none
  version : Option String := none
  parameters : Option (List (String × String)) := none
  scope : Option (List (String × String)) := none
  formats : Option (List String) := none
  requested_by : Option String := none
  reason : Option String := none
  project_id : Option String := none
  protocol_id : Option String := none
deriving Repr, DecidableEq

/-- Request body built from the arguments once the template dict is fixed. -/
def mkExportRequestBody (tmpl : TemplateBody) (args : QueueArgs) : ExportRequestBody :=
  { template := tmpl
    parameters := args.parameters.getD []
    scope := args.scope.getD []
    formats := args.formats.getD []
    requested_by := args.requested_by
    reason := args.reason
    project_id := args.project_id
    protocol_id := args.protocol_id }

deriving instance DecidableEq for Except

/-- Observable outcome of queue_export: the returned handle or raised error,
the number of HTTP requests issued, and the body sent when one was. -/
structure QueueOutcome where
  result : Except ClientError ExportHandle
  networkCalls : Nat
  sentBody : Option ExportRequestBody
deriving Repr, DecidableEq

/-- queue_export from dataset_client.py. The source first builds the template
dict: if template_slug is truthy it is used as the slug (plugin, key and
version are ignored); otherwise, unless plugin, key and version are all
truthy, a ValueError is raised before any request; otherwise the explicit
dict is used. Only then is the POST issued (the response is the model input)
and the body parsed exactly as in get_export. -/
def queue_export (args : QueueArgs) (resp : ExportResponse) : QueueOutcome :=
  if truthy args.template_slug then
    { result := parseExportResponse resp
      networkCalls := 1
      sentBody := some (mkExportRequestBody (.slug (args.template_slug.getD "")) args) }
  else if truthy args.plugin && truthy args.key && truthy args.version then
    { result := parseExportResponse resp
      networkCalls := 1
      sentBody := some (mkExportRequestBody
        (.explicit (args.plugin.getD "") (args.key.getD "") (args.version.getD "")) args) }
  else
    { result := .error (.validationError
        "plugin, key, and version are required when slug is omitted")
      networkCalls := 0
      sentBody := none }

/-- A service whose export status is queued on every fetch (never terminal). -/
def queuedSeq : Nat → ExportHandle := fun _ =>
  { id := "e1", status := "queued", artifacts := [] }

/-- A service delivering one new status per fetch:
queued, queued, running, then succeeded. -/
def fourStepSeq : Nat → ExportHandle := fun n =>
  { id := "e1"
    status := ["queued", "queued", "running", "succeeded"].getD n "succeeded"
    artifacts := [] }

/-- A service delivering queued twice and failed from the third fetch on. -/
def failingSeq : Nat → ExportHandle := fun n =>
  { id := "e9", status := if n < 2 then "queued" else "failed", artifacts := [] }

/-- Response of the artifact download endpoint: status code, the payload
(resp.content; resp.text denotes the same payload decoded, so the model
carries one string), and whether the payload object is a bytes value, which
in requests it always is. -/
structure RawResponse where
  statusCode : Nat
  content : String
  contentIsBinary : Bool
deriving Repr, DecidableEq

/-- Characters of a string with the trailing run of the given character
removed (Python str.rstrip with a single-character argument). -/
def rstripCharList (c : Char) (l : List Char) : List Char :=
  (l.reverse.dropWhile (· == c)).reverse

/-- os.path.dirname for POSIX paths as implemented by posixpath: keep the
prefix up to and including the last slash, then strip trailing slashes unless
the prefix is empty or consists only of slashes. -/
def dirname (p : String) : String :=
  let head : List Char := (p.data.reverse.dropWhile (· != '/')).reverse
  let stripped : List Char := rstripCharList '/' head
  if head.isEmpty || stripped.isEmpty then ⟨head⟩ else ⟨stripped⟩

/-- Directory argument passed to os.makedirs by download_artifact:
os.path.dirname(destination) or the current directory when that is empty. -/
def makedirsTarget (destination : String) : String :=
  if dirname destination = "" then "." else dirname destination

/-- Chain of a directory and its ancestors obtained by iterating dirname,
fuel-indexed; stops at the empty string or at a dirname fixpoint (the root). -/
def dirChain : Nat → String → List String
  | 0, _ => []
  | fuel + 1, p =>
    if p = "" then []
    else p :: (if dirname p = p then [] else dirChain fuel (dirname p))

/-- Directories guaranteed to exist after os.makedirs(p, exist_ok=True):
p itself and all of its ancestors. -/
def ancestorDirs (p : String) : List String :=
  dirChain (p.length + 1) p

/-- File-system state: the set of existing directories and a map from file
path to file contents, both as association lists. -/
structure FS where
  dirs : List String
  files : List (String × String)
deriving Repr, DecidableEq

/-- os.makedirs(p, exist_ok=True): ensure p and all its ancestors exist. -/
def makedirs (p : String) (fs : FS) : FS :=
  { fs with dirs := ancestorDirs p ++ fs.dirs }

/-- Writing a file: the new contents shadow any previous entry at the path. -/
def setFile (path contents : String) (fs : FS) : FS :=
  { fs with files := (path, contents) :: fs.files }

/-- Contents of the file at a path, when one exists. -/
def findFile (fs : FS) (p : String) : Option String :=
  (fs.files.find? (fun kv => kv.fst == p)).map (fun kv => kv.snd)

/-- Write mode chosen by download_artifact: "wb" when resp.content is a bytes
object, "w" otherwise. -/
def writeMode (resp : RawResponse) : String :=
  if resp.contentIsBinary then "wb" else "w"

/-- download_artifact from dataset_client.py: GET the signed URL (the
response is the model input), raise_for_status; with no destination return
resp.text; with a destination, create the missing parent directories of the
destination, write the payload there (resp.content in binary mode, resp.text
otherwise, the same payload in this model) and return the destination path. -/
def download_artifact (resp : RawResponse) (destination : Option String)
    (fs : FS) : Except ClientError (String × FS) :=
  if is2xx resp.statusCode then
    match destination with
    | none => .ok (resp.content, fs)
    | some dest =>
      let fs1 := makedirs (makedirsTarget dest) fs
      let fs2 := setFile dest resp.content fs1
      .ok (dest, fs2)
  else .error (.serviceError resp.statusCode resp.content)

/-- normalize_bool from run_lintr.py (source name with a leading underscore):
None is falsy; otherwise strip, lower and compare with the four truthy words. -/
def normalize_bool : Option String → Bool
  | none => false
  | some v =>
    let s := v.trim.toLower
    s == "1" || s == "true" || s == "yes" || s == "on"

/-- Substring test (the Python operator in on strings), via splitOn: the
needle occurs in the haystack iff it is empty or splitting produces more than
one piece. -/
def containsSubstr (hay needle : String) : Bool :=
  needle.isEmpty || (hay.splitOn needle).length > 1

/-- Detection of dynamic-loader problems in run_lintr.main: the combined
lowercased output mentions a shared-library loading failure or libblas.so. -/
def sharedLibIssue (combined : String) : Bool :=
  containsSubstr combined.toLower "error while loading shared libraries"
    || containsSubstr combined.toLower "libblas.so"

/-- Exit-code computation at the tail of run_lintr.main, after the R
subprocess has run: 0 on subprocess success; on failure, a detected
shared-library issue is downgraded to exit 0 unless REQUIRE_R_LINT is truthy
(in which case the failing code, or 1 when it is 0, is returned); any other
failure returns the failing code, or 1 when it is 0. Exit codes are Nat in
this model (the claims involve no negative signal codes). -/
def lintExit (returncode : Nat) (stdoutStr stderrStr : String)
    (require_r_lint : Option String) : Nat :=
  if returncode == 0 then 0
  else
    let combined := stdoutStr ++ stderrStr
    if sharedLibIssue combined then
      if normalize_bool require_r_lint then
        (if returncode == 0 then 1 else returncode)
      else 0
    else (if returncode == 0 then 1 else returncode)

/-- Characters (as a string) with trailing slashes removed: Python
base_url.rstrip applied to the slash character, as in the constructor. -/
def rstripSlashes (s : String) : String :=
  ⟨rstripCharList '/' s.data⟩

/-- Client state after construction: only the stored base URL matters for
request targets. -/
structure DatasetClient where
  base_url : String
deriving Repr, DecidableEq

/-- Constructor of DatasetClient: strips trailing slashes from the base URL. -/
def DatasetClient.init (base_url : String) : DatasetClient :=
  { base_url := rstripSlashes base_url }

/-- Request target of list_templates. -/
def DatasetClient.listTemplatesUrl (c : DatasetClient) : String :=
  c.base_url ++ "/api/v1/datasets/templates"

/-- Request target of get_template. -/
def DatasetClient.getTemplateUrl (c : DatasetClient) (plugin key version : String) : String :=
  c.base_url ++ "/api/v1/datasets/templates/" ++ plugin ++ "/" ++ key ++ "/" ++ version

/-- Request target of validate_template. -/
def DatasetClient.validateTemplateUrl (c : DatasetClient) (plugin key version : String) : String :=
  c.getTemplateUrl plugin key version ++ "/validate"

/-- Request target of run_template. -/
def DatasetClient.runTemplateUrl (c : DatasetClient) (plugin key version : String) : String :=
  c.getTemplateUrl plugin key version ++ "/run"

/-- Request target of queue_export. -/
def DatasetClient.queueExportUrl (c : DatasetClient) : String :=
  c.base_url ++ "/api/v1/datasets/exports"

/-- Request target of get_export. -/
def DatasetClient.getExportUrl (c : DatasetClient) (export_id : String) : String :=
  c.base_url ++ "/api/v1/datasets/exports/" ++ export_id

/-- A string of n slashes. -/
def slashes (n : Nat) : String :=
  ⟨List.replicate n '/'⟩

/-- A well-formed 2xx submission response assigning id e1, status queued. -/
def okQueuedResp : ExportResponse :=
  { statusCode := 200
    text := "ok"
    body := { exportField := some { id := some "e1", status := some "queued", artifacts := some [] } } }

/-- A 2xx response whose export payload carries a status string outside the
four enum values. -/
def weirdStatusResp : ExportResponse :=
  { statusCode := 200
    text := "ok"
    body := { exportField := some { id := some "e1", status := some "weird", artifacts := none } } }

/-- A well-formed 2xx status response assigning id e2, status succeeded. -/
def okSucceededResp : ExportResponse :=
  { statusCode := 200
    text := "ok"
    body := { exportField := some { id := some "e2", status := some "succeeded", artifacts := some [] } } }

/-- A 404 status response. -/
def notFoundResp : ExportResponse :=
  { statusCode := 404
    text := "export not found"
    body := { exportField := none } }

/-- Arguments supplying both a slug and a fully populated explicit template. -/
def bothArgs : QueueArgs :=
  { template_slug := some "slug-1", plugin := some "p", key := some "k", version := some "v" }

/-- A 2xx artifact response with a binary payload. -/
def artifactResp : RawResponse :=
  { statusCode := 200, content := "col1,col2", contentIsBinary := true }

/-! Theorems -/

theorem all_le_of_getLast_le {l : List Nat} {x d : Nat}
    (hl : l.getLast? = some x) (hdrop : ∀ t ∈ l.dropLast, t ≤ d) (hx : x ≤ d) :
    ∀ t ∈ l, t ≤ d := by
  intro t ht
  rw [← List.dropLast_append_getLast? x hl] at ht
  rcases List.mem_append.mp ht with h | h
  · exact hdrop t h
  · rw [List.mem_singleton.mp h]; exact hx

theorem waitAux_timeout_of_never_terminal
    (seq : Nat → ExportHandle) (interval deadline : Nat)
    (hNT : ∀ n, isTerminalStatus (seq n).status = false) :
    ∀ (fuel : Nat), ∀ (m k now : Nat), ∀ (times : List Nat),
      deadline + interval < now + fuel * interval →
      now ≤ deadline + interval →
      times.getLast? = some now →
      (∀ t ∈ times.dropLast, t ≤ deadline) →
      ∃ e times2,
        waitAux seq interval deadline fuel (seq m) k now times
            = some (.timedOut e, times2)
        ∧ deadline < e ∧ e ≤ deadline + interval
        ∧ times2.getLast? = some e
        ∧ (∀ t ∈ times2.dropLast, t ≤ deadline) := by
  intro fuel
  induction fuel with
  | zero =>
    intro m k now times h1 h2 _ _
    exact absurd h1 (by omega)
  | succ f ih =>
    intro m k now times h1 h2 h3 h4
    by_cases hnow : deadline < now
    · exact ⟨now, times, by simp [waitAux, hNT m, hnow], hnow, h2, h3, h4⟩
    · have h1' : deadline + interval < (now + interval) + f * interval := by
        rw [Nat.succ_mul] at h1; omega
      have h2' : now + interval ≤ deadline + interval := by omega
      have h3' : (times ++ [now + interval]).getLast? = some (now + interval) :=
        List.getLast?_concat _
      have h4' : ∀ t ∈ (times ++ [now + interval]).dropLast, t ≤ deadline := by
        rw [List.dropLast_concat]
        exact all_le_of_getLast_le h3 h4 (by omega)
      obtain ⟨e, times2, heq, hgt, hle, hlast, hdrop⟩ :=
        ih k (k + 1) (now + interval) (times ++ [now + interval]) h1' h2' h3' h4'
      exact ⟨e, times2, by simp [waitAux, hNT m, hnow, heq], hgt, hle, hlast, hdrop⟩

/-- C1 (amended): for a status sequence that never turns terminal, with
enough fuel, wait_for_export fails with TimeoutError at its first status
check after the clock exceeds the absolute deadline, and issues no fetch
after that failing check. Every fetch other than the last occurs at or
before the absolute deadline; the last fetch occurs at most interval after
it (and may thus fall strictly after the deadline, contrary to the claim as
written), and the TimeoutError is raised exactly at the time of that last
fetch. -/
theorem wait_for_export_timeout_fetch_bound
    (seq : Nat → ExportHandle) (interval deadline fuel : Nat)
    (hNT : ∀ n, isTerminalStatus (seq n).status = false)
    (hfuel : deadline + interval < fuel * interval) :
    ∃ e times,
      wait_for_export seq interval deadline fuel = some (.timedOut e, times)
      ∧ deadline < e ∧ e ≤ deadline + interval
      ∧ times.getLast? = some e
      ∧ (∀ t ∈ times.dropLast, t ≤ deadline)
      ∧ (∀ t ∈ times, t ≤ deadline + interval) := by
  obtain ⟨e, times2, heq, hgt, hle, hlast, hdrop⟩ :=
    waitAux_timeout_of_never_terminal seq interval deadline hNT fuel 0 1 0 [0]
      (by omega) (by omega) rfl (by simp)
  exact ⟨e, times2, heq, hgt, hle, hlast, hdrop,
    all_le_of_getLast_le hlast (fun t ht => le_trans (hdrop t ht) (by omega)) hle⟩

/-- Witness for C1 at interval 2, deadline 5, a sequence that stays queued,
and fuel 10. -/
theorem wait_for_export_timeout_fetch_bound_witness :
    ∃ e times,
      wait_for_export queuedSeq 2 5 10 = some (.timedOut e, times)
      ∧ 5 < e ∧ e ≤ 5 + 2
      ∧ times.getLast? = some e
      ∧ (∀ t ∈ times.dropLast, t ≤ 5)
      ∧ (∀ t ∈ times, t ≤ 5 + 2) :=
  wait_for_export_timeout_fetch_bound queuedSeq 2 5 10 (fun _ => rfl) (by omega)

/-- C1 counterexample: with interval 2 and deadline 5 against a sequence
that never turns terminal, the loop fetches at times 0, 2, 4 and 6 before
raising TimeoutError: the fetch at time 6 is issued strictly after the
absolute deadline 5, so the last fetch does not occur before the deadline. -/
theorem wait_for_export_fetch_after_deadline_cex :
    wait_for_export queuedSeq 2 5 10 = some (.timedOut 6, [0, 2, 4, 6])
    ∧ ∃ t ∈ ([0, 2, 4, 6] : List Nat), 5 < t := by decide

/-- C2: with interval 2 and deadline 10 against the status sequence queued,
queued, running, succeeded (one new status per fetch), wait_for_export
fetches immediately at time 0 and then at times 2, 4 and 6 (4 fetches, 3
interval sleeps), returns the succeeded handle, and the elapsed time 6 (the
time of the final fetch) satisfies 6 ≤ elapsed < 8. -/
theorem wait_for_export_four_fetch_run :
    wait_for_export fourStepSeq 2 10 20
        = some (.done { id := "e1", status := "succeeded", artifacts := [] }, [0, 2, 4, 6])
    ∧ ([0, 2, 4, 6] : List Nat).length = 4
    ∧ ([0, 2, 4, 6] : List Nat).head? = some 0
    ∧ ([0, 2, 4, 6] : List Nat).getLast? = some 6
    ∧ 6 ≤ 6 ∧ 6 < 8 := by decide

theorem waitAux_first_terminal
    (seq : Nat → ExportHandle) (interval deadline : Nat) :
    ∀ (n : Nat), ∀ (fuel idx now : Nat), ∀ (times : List Nat),
      (∀ j, j < n → isTerminalStatus (seq (idx + j)).status = false) →
      isTerminalStatus (seq (idx + n)).status = true →
      (∀ j, j < n → now + j * interval ≤ deadline) →
      n < fuel →
      ∃ times2,
        waitAux seq interval deadline fuel (seq idx) (idx + 1) now times
            = some (.done (seq (idx + n)), times2)
        ∧ times2.length = times.length + n := by
  intro n
  induction n with
  | zero =>
    intro fuel idx now times _ hterm _ hfuel
    cases fuel with
    | zero => exact absurd hfuel (by omega)
    | succ f =>
      rw [Nat.add_zero] at hterm
      exact ⟨times, by simp [waitAux, hterm], by omega⟩
  | succ n ih =>
    intro fuel idx now times hpre hterm hd hfuel
    cases fuel with
    | zero => exact absurd hfuel (by omega)
    | succ f =>
      have hhead : isTerminalStatus (seq idx).status = false := by
        have := hpre 0 (by omega)
        rwa [Nat.add_zero] at this
      have hnow : ¬ deadline < now := by
        have := hd 0 (by omega)
        simp only [Nat.zero_mul, Nat.add_zero] at this
        omega
      have hpre' : ∀ j, j < n → isTerminalStatus (seq (idx + 1 + j)).status = false := by
        intro j hj
        have := hpre (j + 1) (by omega)
        rwa [show idx + (j + 1) = idx + 1 + j by omega] at this
      have hterm' : isTerminalStatus (seq (idx + 1 + n)).status = true := by
        rwa [show idx + 1 + n = idx + (n + 1) by omega]
      have hd' : ∀ j, j < n → (now + interval) + j * interval ≤ deadline := by
        intro j hj
        have := hd (j + 1) (by omega)
        rw [Nat.succ_mul] at this
        omega
      obtain ⟨times2, heq, hlen⟩ :=
        ih f (idx + 1) (now + interval) (times ++ [now + interval]) hpre' hterm' hd'
          (by omega)
      refine ⟨times2, ?_, by simp at hlen; omega⟩
      rw [show idx + (n + 1) = idx + 1 + n by omega]
      simp [waitAux, hhead, hnow, heq]

/-- C5: when the service reports a failed status at fetch n after n
non-terminal reads, and the deadline and fuel allow the loop to reach that
fetch, wait_for_export returns the failed handle as a normal value (the done
outcome, not the raised TimeoutError), after exactly n + 1 fetches. In this
embedding a raised exception is the timedOut outcome or an error value;
returning done is the normal, exception-free return of the source. -/
theorem wait_for_export_failed_is_returned
    (seq : Nat → ExportHandle) (interval deadline fuel n : Nat)
    (hpre : ∀ j, j < n → isTerminalStatus (seq j).status = false)
    (hfail : (seq n).status = "failed")
    (hd : ∀ j, j < n → j * interval ≤ deadline)
    (hfuel : n < fuel) :
    ∃ times,
      wait_for_export seq interval deadline fuel = some (.done (seq n), times)
      ∧ (seq n).status = "failed"
      ∧ times.length = n + 1 := by
  have hterm : isTerminalStatus (seq (0 + n)).status = true := by
    rw [Nat.zero_add, hfail]; rfl
  have hpre' : ∀ j, j < n → isTerminalStatus (seq (0 + j)).status = false := by
    intro j hj; rw [Nat.zero_add]; exact hpre j hj
  have hd' : ∀ j, j < n → 0 + j * interval ≤ deadline := by
    intro j hj; rw [Nat.zero_add]; exact hd j hj
  obtain ⟨times2, heq, hlen⟩ :=
    waitAux_first_terminal seq interval deadline n fuel 0 0 [0] hpre' hterm hd' hfuel
  simp only [Nat.zero_add] at heq
  exact ⟨times2, heq, hfail, by simp at hlen; omega⟩

/-- Witness for C5: a sequence reading queued, queued, failed with interval
2, deadline 10 and fuel 5 returns the failed handle after 3 fetches. -/
theorem wait_for_export_failed_is_returned_witness :
    ∃ times,
      wait_for_export failingSeq 2 10 5 = some (.done (failingSeq 2), times)
      ∧ (failingSeq 2).status = "failed"
      ∧ times.length = 3 :=
  wait_for_export_failed_is_returned failingSeq 2 10 5 2
    (by decide) (by decide) (by decide) (by decide)

/-- C3: when no slug is supplied (absent or empty) and at least one of
plugin, key, version is missing or empty, queue_export raises the
client-side ValueError and issues zero network calls: the failure happens
before any request is sent. -/
theorem queue_export_missing_fields_validation
    (args : QueueArgs) (resp : ExportResponse)
    (hslug : truthy args.template_slug = false)
    (hmiss : truthy args.plugin = false ∨ truthy args.key = false
        ∨ truthy args.version = false) :
    queue_export args resp =
      { result := .error (.validationError
          "plugin, key, and version are required when slug is omitted")
        networkCalls := 0
        sentBody := none } := by
  unfold queue_export
  rcases hmiss with h | h | h <;> simp [hslug, h]

/-- Witness for C3: all template identity arguments absent. -/
theorem queue_export_missing_fields_validation_witness :
    queue_export {} okQueuedResp =
      { result := .error (.validationError
          "plugin, key, and version are required when slug is omitted")
        networkCalls := 0
        sentBody := none } :=
  queue_export_missing_fields_validation {} okQueuedResp rfl (Or.inl rfl)

/-- C4 counterexample: supplying both a slug and a fully populated explicit
plugin, key, version is not a validation failure: queue_export issues the
network call (one request) and returns the parsed handle, with the slug
template in the sent body. -/
theorem queue_export_both_identities_cex :
    (queue_export bothArgs okQueuedResp).networkCalls = 1
    ∧ (queue_export bothArgs okQueuedResp).result
        = .ok { id := "e1", status := "queued", artifacts := [] }
    ∧ (queue_export bothArgs okQueuedResp).sentBody
        = some (mkExportRequestBody (.slug "slug-1") bothArgs) := by decide

/-- C4 (amended): at least one of a slug or a fully populated explicit
template must be present. When the slug is truthy it is used and the
explicit fields are ignored (supplying both is not an error); otherwise,
when plugin, key and version are all truthy the explicit template is used;
otherwise queue_export fails with the client-side ValueError before any
network call. -/
theorem queue_export_template_identity_cases
    (args : QueueArgs) (resp : ExportResponse) :
    if truthy args.template_slug then
      (queue_export args resp).networkCalls = 1
      ∧ (queue_export args resp).sentBody
          = some (mkExportRequestBody (.slug (args.template_slug.getD "")) args)
    else if truthy args.plugin && truthy args.key && truthy args.version then
      (queue_export args resp).networkCalls = 1
      ∧ (queue_export args resp).sentBody
          = some (mkExportRequestBody
              (.explicit (args.plugin.getD "") (args.key.getD "") (args.version.getD ""))
              args)
    else
      (queue_export args resp).networkCalls = 0
      ∧ (queue_export args resp).result
          = .error (.validationError
              "plugin, key, and version are required when slug is omitted")
      ∧ (queue_export args resp).sentBody = none := by
  unfold queue_export
  by_cases hs : truthy args.template_slug
  · simp [hs]
  · by_cases hall : truthy args.plugin && truthy args.key && truthy args.version
    · simp [hs, hall]
    · simp [hs, hall]

/-- C6 counterexample: a 2xx response whose export payload carries the
status string weird — not one of queued, running, succeeded, failed — does
not fail with ProtocolError: get_export returns a handle holding the
unvalidated status string verbatim. -/
theorem get_export_unknown_status_cex :
    get_export weirdStatusResp
      = .ok { id := "e1", status := "weird", artifacts := [] }
    ∧ ("weird" ≠ "queued" ∧ "weird" ≠ "running"
        ∧ "weird" ≠ "succeeded" ∧ "weird" ≠ "failed") := by decide

/-- C6 (amended): for every 2xx response of the export endpoints, a body
missing the export field, or missing id or status inside it, fails with
ProtocolError naming the missing key; when export, id and status are all
present, the returned handle carries the server-assigned id and the status
string verbatim — the status is not validated against the four enum values
(so a well-formed body whose status is one of the four yields exactly that
status, and any other string is accepted unchanged rather than rejected). -/
theorem get_export_parse_cases (resp : ExportResponse)
    (h2 : is2xx resp.statusCode = true) :
    (resp.body.exportField = none →
      get_export resp = .error (.protocolError "export"))
    ∧ (∀ p, resp.body.exportField = some p →
        (p.id = none → get_export resp = .error (.protocolError "id"))
        ∧ (∀ i, p.id = some i → p.status = none →
            get_export resp = .error (.protocolError "status"))
        ∧ (∀ i s, p.id = some i → p.status = some s →
            get_export resp
              = .ok { id := i, status := s, artifacts := p.artifacts.getD [] })) := by
  have hg : get_export resp = parseExportBody resp.body := by
    simp [get_export, parseExportResponse, raise_for_status, h2]
  refine ⟨?_, ?_⟩
  · intro hnone
    rw [hg]; simp [parseExportBody, hnone]
  · intro p hp
    refine ⟨?_, ?_, ?_⟩
    · intro hid
      rw [hg]; simp [parseExportBody, hp, hid]
    · intro i hi hst
      rw [hg]; simp [parseExportBody, hp, hi, hst]
    · intro i s hi hs
      rw [hg]; simp [parseExportBody, hp, hi, hs]

/-- Witness for C6 at a well-formed succeeded response. -/
theorem get_export_parse_cases_witness :
    (okSucceededResp.body.exportField = none →
      get_export okSucceededResp = .error (.protocolError "export"))
    ∧ (∀ p, okSucceededResp.body.exportField = some p →
        (p.id = none → get_export okSucceededResp = .error (.protocolError "id"))
        ∧ (∀ i, p.id = some i → p.status = none →
            get_export okSucceededResp = .error (.protocolError "status"))
        ∧ (∀ i s, p.id = some i → p.status = some s →
            get_export okSucceededResp
              = .ok { id := i, status := s, artifacts := p.artifacts.getD [] })) :=
  get_export_parse_cases okSucceededResp rfl

/-- C7: for every non-2xx response, get_export fails with the transport
ServiceError carrying the HTTP status code and the response body; when the
status code is 404 that error is the NotFoundError specialization of
ServiceError (the source raises one transport error type, distinguished by
the stored status code). -/
theorem get_export_service_error_taxonomy (resp : ExportResponse)
    (h : is2xx resp.statusCode = false) :
    get_export resp = .error (.serviceError resp.statusCode resp.text)
    ∧ (resp.statusCode = 404 →
        isNotFoundError (.serviceError resp.statusCode resp.text) = true) := by
  constructor
  · simp [get_export, parseExportResponse, raise_for_status, h]
  · intro h404
    rw [h404]
    rfl

/-- Witness for C7 at a 404 response on a lookup-by-id. -/
theorem get_export_service_error_taxonomy_witness :
    get_export notFoundResp = .error (.serviceError 404 "export not found")
    ∧ ((404 : Nat) = 404 →
        isNotFoundError (.serviceError notFoundResp.statusCode notFoundResp.text) = true) :=
  ⟨(get_export_service_error_taxonomy notFoundResp rfl).1,
    (get_export_service_error_taxonomy notFoundResp rfl).2⟩

/-- C8: for every 2xx artifact response: with no destination,
download_artifact returns the payload text and leaves the file system
unchanged; with a destination it creates the destination directory (the
dirname of the destination, or the current directory when that is empty)
together with all of its missing ancestors, writes a file at the
destination whose contents are exactly the response payload, returns the
destination path, and selects the binary write mode exactly when the
payload is binary. -/
theorem download_artifact_cases (resp : RawResponse) (dest : String) (fs : FS)
    (h2 : is2xx resp.statusCode = true) :
    download_artifact resp none fs = .ok (resp.content, fs)
    ∧ (∃ fs2,
        download_artifact resp (some dest) fs = .ok (dest, fs2)
        ∧ findFile fs2 dest = some resp.content
        ∧ (∀ a ∈ ancestorDirs (makedirsTarget dest), a ∈ fs2.dirs))
    ∧ (writeMode resp = "wb" ↔ resp.contentIsBinary = true) := by
  refine ⟨?_, ⟨setFile dest resp.content (makedirs (makedirsTarget dest) fs),
    ?_, ?_, ?_⟩, ?_⟩
  · simp [download_artifact, h2]
  · simp [download_artifact, h2]
  · unfold findFile setFile
    rw [List.find?_cons_of_pos _ (by simp)]
    rfl
  · intro a ha
    simp only [setFile, makedirs]
    exact List.mem_append_left _ ha
  · unfold writeMode
    cases hb : resp.contentIsBinary <;> simp

/-- Witness for C8 at a binary 2xx payload and destination /tmp/out/e1.csv
over the empty file system. -/
theorem download_artifact_cases_witness :
    download_artifact artifactResp none ⟨[], []⟩ = .ok (artifactResp.content, ⟨[], []⟩)
    ∧ (∃ fs2,
        download_artifact artifactResp (some "/tmp/out/e1.csv") ⟨[], []⟩
            = .ok ("/tmp/out/e1.csv", fs2)
        ∧ findFile fs2 "/tmp/out/e1.csv" = some artifactResp.content
        ∧ (∀ a ∈ ancestorDirs (makedirsTarget "/tmp/out/e1.csv"), a ∈ fs2.dirs))
    ∧ (writeMode artifactResp = "wb" ↔ artifactResp.contentIsBinary = true) :=
  download_artifact_cases artifactResp "/tmp/out/e1.csv" ⟨[], []⟩ rfl

/-- C9: whenever the R subprocess fails (non-zero return code), run_lintr
exits 0 (soft-skip) when the combined output indicates a known
shared-library loading problem and REQUIRE_R_LINT is unset or falsy; it
exits non-zero when such a problem is indicated but REQUIRE_R_LINT is
truthy; and it exits non-zero on every other failure, such as lint
findings. -/
theorem lintExit_soft_skip (rc : Nat) (out err : String) (req : Option String)
    (hrc : rc ≠ 0) :
    (sharedLibIssue (out ++ err) = true →
      (normalize_bool req = false → lintExit rc out err req = 0)
      ∧ (normalize_bool req = true → lintExit rc out err req ≠ 0))
    ∧ (sharedLibIssue (out ++ err) = false → lintExit rc out err req ≠ 0) := by
  have hbeq : (rc == 0) = false := by simpa using hrc
  constructor
  · intro hdet
    constructor
    · intro hreq
      simp [lintExit, hbeq, hdet, hreq]
    · intro hreq
      simp [lintExit, hbeq, hdet, hreq, hrc]
  · intro hdet
    simp [lintExit, hbeq, hdet, hrc]

/-- Witness for C9 at return code 1, a shared-library loading failure
message, and REQUIRE_R_LINT unset. -/
theorem lintExit_soft_skip_witness :
    (sharedLibIssue ("error while loading shared libraries: libfoo.so" ++ "") = true →
      (normalize_bool none = false →
        lintExit 1 "error while loading shared libraries: libfoo.so" "" none = 0)
      ∧ (normalize_bool none = true →
        lintExit 1 "error while loading shared libraries: libfoo.so" "" none ≠ 0))
    ∧ (sharedLibIssue ("error while loading shared libraries: libfoo.so" ++ "") = false →
      lintExit 1 "error while loading shared libraries: libfoo.so" "" none ≠ 0) :=
  lintExit_soft_skip 1 "error while loading shared libraries: libfoo.so" "" none
    (by decide)

theorem dropWhile_slash_replicate (n : Nat) (l : List Char) :
    List.dropWhile (· == '/') (List.replicate n '/' ++ l)
      = List.dropWhile (· == '/') l := by
  induction n with
  | zero => rfl
  | succ n ih => simp [List.replicate_succ, List.dropWhile_cons, ih]

theorem rstripSlashes_append_slashes (b : String) (n : Nat) :
    rstripSlashes (b ++ slashes n) = rstripSlashes b := by
  unfold rstripSlashes slashes rstripCharList
  congr 1
  rw [String.data_append]
  show ((b.data ++ (String.mk (List.replicate n '/')).data).reverse.dropWhile (· == '/')).reverse = _
  rw [show (String.mk (List.replicate n '/')).data = List.replicate n '/' from rfl]
  rw [List.reverse_append, List.reverse_replicate, dropWhile_slash_replicate]

/-- C10: the constructor strips trailing slashes from the base URL, so a
client built from any base URL and a client built from that base URL with
any number of extra trailing slashes are equal, and every operation of the
client issues its request to the identical URL. -/
theorem base_url_trailing_slashes_irrelevant
    (b : String) (n : Nat) (plugin key version export_id : String) :
    DatasetClient.init (b ++ slashes n) = DatasetClient.init b
    ∧ (DatasetClient.init (b ++ slashes n)).listTemplatesUrl
        = (DatasetClient.init b).listTemplatesUrl
    ∧ (DatasetClient.init (b ++ slashes n)).getTemplateUrl plugin key version
        = (DatasetClient.init b).getTemplateUrl plugin key version
    ∧ (DatasetClient.init (b ++ slashes n)).validateTemplateUrl plugin key version
        = (DatasetClient.init b).validateTemplateUrl plugin key version
    ∧ (DatasetClient.init (b ++ slashes n)).runTemplateUrl plugin key version
        = (DatasetClient.init b).runTemplateUrl plugin key version
    ∧ (DatasetClient.init (b ++ slashes n)).queueExportUrl
        = (DatasetClient.init b).queueExportUrl
    ∧ (DatasetClient.init (b ++ slashes n)).getExportUrl export_id
        = (DatasetClient.init b).getExportUrl export_id := by
  have hc : DatasetClient.init (b ++ slashes n) = DatasetClient.init b := by
    unfold DatasetClient.init
    rw [rstripSlashes_append_slashes]
  exact ⟨hc, by rw [hc], by rw [hc], by rw [hc], by rw [hc], by rw [hc], by rw [hc]⟩

end ColonyCore
